import Mathlib

/-!
Verification development for TranscoderPy (`src/transcode.py`).

The Python program is shallowly embedded below.  External processes are
abstracted by a `Proc` record giving the exit status and the captured
standard-error data of a spawned process; the filesystem is abstracted by
the set (list) of existing output directories.  Pure logic (the encoders
table, command construction, the resampling decision, the per-stage
failure-classification loop, and the control flow of `transcode_release`)
is translated directly from the source.
-/

namespace TranscoderPy

/-- The `encoders` dictionary entries (src/transcode.py lines 21-26). -/
structure Encoder where
  enc : String
  ext : String
  opts : String
deriving DecidableEq, Repr

/-- The `encoders` dictionary (src/transcode.py lines 21-26); `none` models a
`KeyError` for an unknown output format. -/
def encoders : String → Option Encoder
  | "320"  => some ⟨"lame", ".mp3", "-h -b 320 --ignore-tag-errors"⟩
  | "V0"   => some ⟨"lame", ".mp3", "-V 0 --vbr-new --ignore-tag-errors"⟩
  | "V2"   => some ⟨"lame", ".mp3", "-V 2 --vbr-new --ignore-tag-errors"⟩
  | "FLAC" => some ⟨"flac", ".flac", "--best"⟩
  | _      => none

/-- Abstraction of one spawned subprocess: its final exit status
(`proc.returncode`, negative for death by signal, as in Python's
`subprocess`) and the data read from its standard-error pipe. -/
structure Proc where
  returncode : Int
  stderrData : String
deriving DecidableEq, Repr

/-- `run_pipeline` (src/transcode.py lines 46-75).  `spawn` abstracts
`subprocess.Popen` plus the subsequent wait: it yields the behaviour of the
process started for a given command.  The command type is a parameter so a
caller may distinguish positionally identical commands.

The Python code appends one `Popen` result per command to `procs`, then
calls `last_proc.communicate()`; when `cmds` is empty `last_proc` is still
`None` and that call raises (`AttributeError`), modelled by `none`.
Otherwise the result list is built from `zip(cmds[:-1], procs[:-1])` as
`(proc.returncode, proc.stderr.read())` pairs, with
`(last_proc.returncode, last_stderr)` appended. -/
def run_pipeline {α : Type} (cmds : List α) (spawn : α → Proc) :
    Option (List (Int × String)) :=
  let procs := cmds.map spawn
  match procs.getLast? with
  | none => none
  | some last_proc =>
    let last_stderr := last_proc.stderrData
    let results := (cmds.dropLast.zip procs.dropLast).map
      (fun cp => (cp.2.returncode, cp.2.stderrData))
    some (results ++ [(last_proc.returncode, last_stderr)])

/-- `signal.SIGPIPE` on Linux. -/
def SIGPIPE : Int := 13

/-- Outcome of the result-checking loop in `transcode`
(src/transcode.py lines 211-224): success, a `TranscodeException`
carrying a stage's captured stderr, or the SIGPIPE-only
`TranscodeException` raised at line 224. -/
inductive PipelineOutcome where
  | success
  | failed (stderr : String)
  | sigpipeFailed
deriving DecidableEq, Repr

/-- The loop body of src/transcode.py lines 215-224: walk the per-stage
results in order; a stage whose nonzero status is `-SIGPIPE` is recorded
provisionally (`last_sigpipe`), any other nonzero status raises at once
with that stage's stderr; after the loop a recorded SIGPIPE raises. -/
def classifyLoop : List (Int × String) → Bool → PipelineOutcome
  | [], sawSigpipe => if sawSigpipe then .sigpipeFailed else .success
  | (code, stderr) :: rest, sawSigpipe =>
    if code ≠ 0 then
      if code = -SIGPIPE then classifyLoop rest true
      else .failed stderr
    else classifyLoop rest sawSigpipe

/-- Classification of a whole result list (`last_sigpipe` starts as `None`). -/
def classifyResults (results : List (Int × String)) : PipelineOutcome :=
  classifyLoop results false

/-- Metadata of one FLAC file as read through `mutagen.flac.FLAC(...).info`. -/
structure FlacInfo where
  sample_rate : Nat
  bits_per_sample : Nat
  channels : Nat
deriving DecidableEq, Repr

/-- `is_24bit` (src/transcode.py lines 94-99): any FLAC in the release has
more than 16 bits per sample. -/
def is_24bit (flacs : List FlacInfo) : Bool :=
  flacs.any (fun f => f.bits_per_sample > 16)

/-- `is_multichannel` (src/transcode.py lines 101-106). -/
def is_multichannel (flacs : List FlacInfo) : Bool :=
  flacs.any (fun f => f.channels > 2)

/-- `needs_resampling` (src/transcode.py lines 108-113): the release-level
resampling decision delegates to `is_24bit` only. -/
def needs_resampling (flacs : List FlacInfo) : Bool :=
  is_24bit flacs

/-- `resample_rate` (src/transcode.py lines 115-126).  `max()` of an empty
sequence raises, modelled by the outer `none`; the inner `Option` is the
function's own `None` for an unsupported rate. -/
def resample_rate : List FlacInfo → Option (Option Nat)
  | [] => none
  | f :: fs =>
    let original_rate := (fs.map (fun g => g.sample_rate)).foldl max f.sample_rate
    some (if original_rate % 44100 = 0 then some 44100
          else if original_rate % 48000 = 0 then some 48000
          else none)

/-- The character class of `pipes.quote` (same as `shlex.quote`): characters
safe to leave unquoted — ASCII alphanumerics, underscore, and the punctuation
at-sign, percent, plus, equals, colon, comma, dot, slash, hyphen. -/
def shellSafeChar (c : Char) : Bool :=
  c.isAlphanum || c = '_' || c = '@' || c = '%' || c = '+' || c = '=' ||
    c = ':' || c = ',' || c = '.' || c = '/' || c = '-'

/-- `pipes.quote` as used by `transcode_commands` (src/transcode.py
lines 150-152). -/
def pipes_quote (s : String) : String :=
  if s = "" then "''"
  else if s.toList.all shellSafeChar then s
  else "'" ++ (s.replace "'" "'\"'\"'") ++ "'"

/-- Python `str.format(**transcode_args)` on the command templates: the
placeholders `{FLAC}`, `{FILE}`, `{OPTS}` and `{SAMPLERATE}` are replaced
by their values. -/
def format_cmd (template flac file opts samplerate : String) : String :=
  ((((template.replace "{FLAC}" flac).replace "{FILE}" file).replace
      "{OPTS}" opts).replace "{SAMPLERATE}" samplerate)

/-- Decoder template when resampling (src/transcode.py line 136). -/
def sox_decoder_template : String :=
  "sox {FLAC} -G -b 16 -t wav - rate -v -L {SAMPLERATE} dither"

/-- Decoder template without resampling (src/transcode.py line 138). -/
def flac_decoder_template : String :=
  "flac -dcs -- {FLAC}"

/-- Lossy encoder template (src/transcode.py line 140). -/
def lame_encoder_template : String :=
  "lame -S {OPTS} - {FILE}"

/-- Lossless encoder template (src/transcode.py line 141). -/
def flac_encoder_template : String :=
  "flac {OPTS} -o {FILE} -"

/-- Combined decode+resample+encode template for the lossless profile
(src/transcode.py line 158). -/
def sox_combined_template : String :=
  "sox {FLAC} -G -b 16 {FILE} rate -v -L {SAMPLERATE} dither"

/-- `transcode_commands` (src/transcode.py lines 128-161).  The
`needed_sample_rate` argument is `transcode`'s string-or-`None` value;
`str.format` renders Python `None` as `"None"`.  A lookup miss in
`encoders` (a `KeyError` in Python) is modelled by `none`. -/
def transcode_commands (output_format : String) (resample : Bool)
    (needed_sample_rate : Option String) (flac_file transcode_file : String) :
    Option (List String) := do
  let e ← encoders output_format
  let flac_decoder := if resample then sox_decoder_template else flac_decoder_template
  let transcoding_steps := [flac_decoder] ++
    (if e.enc = "lame" then [lame_encoder_template]
     else if e.enc = "flac" then [flac_encoder_template]
     else [])
  let vFLAC := pipes_quote flac_file
  let vFILE := pipes_quote transcode_file
  let vOPTS := e.opts
  let vRATE := match needed_sample_rate with
    | some r => r
    | none => "None"
  if output_format = "FLAC" ∧ resample = true then
    pure [format_cmd sox_combined_template vFLAC vFILE vOPTS vRATE]
  else
    pure (transcoding_steps.map (fun c => format_cmd c vFLAC vFILE vOPTS vRATE))

/-- The exceptions `transcode` and its callees raise. -/
inductive TranscodeErr where
  | unknownSampleRate
  | downmix
  | stageFailed (stderr : String)
  | sigpipe
  | tagCheckFailed (msg : String)
deriving DecidableEq, Repr

/-- The planning-time checks of `transcode` (src/transcode.py lines
172-189): compute `resample` from the file's metadata, then determine
`needed_sample_rate` (raising `UnknownSampleRateException` when resampling
is required but the rate divides neither 44100 nor 48000), then reject
more than two channels with `TranscodeDownmixException`. The sample-rate
check precedes the channel check, as in the source. -/
def plan_checks (sample_rate bits_per_sample channels : Nat) :
    Except TranscodeErr (Bool × Option String) := do
  let resample : Bool := sample_rate > 48000 || bits_per_sample > 16
  let needed_sample_rate ←
    if resample then
      if sample_rate % 44100 = 0 then pure (some "44100")
      else if sample_rate % 48000 = 0 then pure (some "48000")
      else Except.error TranscodeErr.unknownSampleRate
    else pure (none : Option String)
  if channels > 2 then Except.error TranscodeErr.downmix
  else pure (resample, needed_sample_rate)

/-- The planning portion of `transcode` (src/transcode.py lines 167-208):
metadata checks followed by command construction. -/
def plan_transcode (sample_rate bits_per_sample channels : Nat)
    (output_format flac_file transcode_file : String) :
    Except TranscodeErr (Option (List String)) := do
  let rn ← plan_checks sample_rate bits_per_sample channels
  pure (transcode_commands output_format rn.1 rn.2 flac_file transcode_file)

/-- The forbidden-character scrub of `get_transcode_dir`
(src/transcode.py line 263): successive `str.replace` calls deleting
backslash, slash, colon, star, question mark, double quote, angle
brackets, and the vertical bar. -/
def scrub_basename (s : String) : String :=
  ((((((((s.replace "\\" "").replace "/" "").replace ":" "").replace "*" "").replace
      "?" "").replace "\x22" "").replace "<" "").replace ">" "").replace "|" ""

/-- `get_transcode_dir` (src/transcode.py lines 248-264): append the
format-specific suffix to the basename, scrub forbidden characters, and
join under `output_dir`.  The interactive path-length re-prompt loop
(lines 258-261, driven by `input()`) is outside the model; this is the
directory computed when no path-length violation occurs. -/
def get_transcode_dir (output_dir basename output_format : String) : String :=
  let b := basename ++
    (if output_format = "FLAC" then " [FLAC - Lossless]"
     else if output_format = "V0" then " [MP3 - V0]"
     else if output_format = "320" then " [MP3 - 320]"
     else " [MP3 - V2]")
  output_dir ++ "/" ++ scrub_basename b

/-- The filesystem as `transcode_release` observes it: the list of
existing output directories (`os.path.exists` / `os.makedirs` /
`shutil.rmtree` act on whole transcode directories). -/
structure FS where
  dirs : List String
deriving DecidableEq, Repr

/-- `transcode_release` (src/transcode.py lines 266-355).

`flacs` stands for the metadata of the FLAC files found under `flac_dir`
(`locate` + `mutagen`); `jobResults` gives, in file order, the outcome each
`pool_transcode` worker would produce (the produced file's path on success,
the raised exception on failure).  Control flow as in the source:

* lines 278-283: lossless output and no release-level resampling —
  return `flac_dir` itself, touching nothing (the pass-through case);
* lines 292-298: compute the transcode directory; if it already exists
  return it unchanged, otherwise create it;
* lines 316-336: run the pool; `Pool.map_async(...).get` re-raises the
  first worker exception;
* lines 338-347: on success return the created directory (ancillary-file
  copying, plain file-copy glue into subdirectories of `transcode_dir`,
  does not affect the tracked set of output directories);
* lines 349-355: on any exception remove the whole directory and re-raise. -/
def transcode_release (fs : FS) (flacs : List FlacInfo)
    (flac_dir output_dir basename output_format : String)
    (jobResults : List (Except TranscodeErr String)) :
    FS × Except TranscodeErr String :=
  let resample := needs_resampling flacs
  if output_format = "FLAC" ∧ resample = false then
    (fs, Except.ok flac_dir)
  else
    let transcode_dir := get_transcode_dir output_dir basename output_format
    if transcode_dir ∈ fs.dirs then
      (fs, Except.ok transcode_dir)
    else
      let fs1 : FS := ⟨transcode_dir :: fs.dirs⟩
      match jobResults.findSome?
          (fun r => match r with | .error e => some e | .ok _ => none) with
      | some e => (⟨fs1.dirs.filter (fun d => d ≠ transcode_dir)⟩, Except.error e)
      | none => (fs1, Except.ok transcode_dir)

/-! ## Theorems -/

/-- C9: the pipeline executor requires a non-empty command chain — on the
empty chain `run_pipeline` does not return an (empty) result list but fails,
because `last_proc` is still `None` when it is dereferenced. -/
theorem run_pipeline_empty {α : Type} (spawn : α → Proc) :
    run_pipeline ([] : List α) spawn = none := rfl

/-- C2: for every non-empty command chain, `run_pipeline` returns one
`(exit code, captured stderr)` pair per stage, in stage order — the result
is exactly the stage list mapped to each stage's process outcome, hence of
the same length, regardless of which stages fail. -/
theorem run_pipeline_results {α : Type} (cmds : List α) (spawn : α → Proc)
    (h : cmds ≠ []) :
    run_pipeline cmds spawn =
      some (cmds.map (fun c => ((spawn c).returncode, (spawn c).stderrData))) ∧
    (cmds.map (fun c => ((spawn c).returncode, (spawn c).stderrData))).length
      = cmds.length := by
  refine ⟨?_, by simp⟩
  rcases cmds.eq_nil_or_concat with rfl | ⟨l, a, rfl⟩
  · exact absurd rfl h
  · rw [List.concat_eq_append]
    have hzip : l.zip (l.map spawn) = l.map (fun x => (x, spawn x)) := by
      conv_lhs => rw [show l = l.map id from (List.map_id l).symm]
      simpa using List.zip_map' id spawn l
    simp only [run_pipeline, List.map_append, List.map_cons, List.map_nil,
      List.getLast?_concat, List.dropLast_concat, hzip, List.map_map]
    rfl

/-- Witness for C2 at a concrete three-stage chain. -/
theorem run_pipeline_results_witness :
    run_pipeline ["flac -dcs -- a.flac", "lame -S - b.mp3", "cat"]
        (fun c => if c = "cat" then ⟨1, "boom"⟩ else ⟨0, ""⟩) =
      some [((0 : Int), ""), ((0 : Int), ""), ((1 : Int), "boom")] := by
  have := run_pipeline_results
    ["flac -dcs -- a.flac", "lame -S - b.mp3", "cat"]
    (fun c => if c = "cat" then ⟨1, "boom"⟩ else ⟨0, ""⟩) (by decide)
  rw [this.1]
  rfl

/-- The checking loop reports the stderr of stage `k` whenever stage `k`'s
exit status is nonzero and not `-SIGPIPE` and every earlier stage exited
zero or by SIGPIPE — independently of the accumulated SIGPIPE flag and of
all later stages. -/
theorem classifyLoop_failed_of_first (rs : List (Int × String)) :
    ∀ (k : Nat) (saw : Bool), k < rs.length →
    (rs.getD k (0, "")).1 ≠ 0 → (rs.getD k (0, "")).1 ≠ -SIGPIPE →
    (∀ i, i < k → (rs.getD i (0, "")).1 = 0 ∨ (rs.getD i (0, "")).1 = -SIGPIPE) →
    classifyLoop rs saw = PipelineOutcome.failed (rs.getD k (0, "")).2 := by
  induction rs with
  | nil => intro k saw hk _ _ _; exact absurd hk (by simp)
  | cons head rest ih =>
    obtain ⟨c, s⟩ := head
    intro k saw hk hnz hns hbefore
    match k with
    | 0 =>
      simp only [List.getD_cons_zero] at hnz hns ⊢
      show (if c ≠ 0 then
              if c = -SIGPIPE then classifyLoop rest true
              else PipelineOutcome.failed s
            else classifyLoop rest saw) = _
      rw [if_pos hnz, if_neg hns]
    | (k' + 1) =>
      have hc := hbefore 0 (Nat.succ_pos k')
      simp only [List.getD_cons_zero] at hc
      simp only [List.getD_cons_succ] at hnz hns ⊢
      have hk' : k' < rest.length := Nat.lt_of_succ_lt_succ hk
      have hbefore' : ∀ i, i < k' →
          (rest.getD i (0, "")).1 = 0 ∨ (rest.getD i (0, "")).1 = -SIGPIPE := by
        intro i hi
        have := hbefore (i + 1) (Nat.succ_lt_succ hi)
        simpa using this
      show (if c ≠ 0 then
              if c = -SIGPIPE then classifyLoop rest true
              else PipelineOutcome.failed s
            else classifyLoop rest saw) = _
      rcases hc with hc | hc
      · rw [if_neg (by simpa using hc)]
        exact ih k' saw hk' hnz hns hbefore'
      · have hc0 : c ≠ 0 := by rw [hc]; decide
        rw [if_pos hc0, if_pos hc]
        exact ih k' true hk' hnz hns hbefore'

/-- The checking loop ends in the SIGPIPE-only failure only when every
stage exited zero or by SIGPIPE. -/
theorem classifyLoop_sigpipe_all (rs : List (Int × String)) :
    ∀ saw : Bool, classifyLoop rs saw = PipelineOutcome.sigpipeFailed →
    ∀ i, i < rs.length →
      (rs.getD i (0, "")).1 = 0 ∨ (rs.getD i (0, "")).1 = -SIGPIPE := by
  induction rs with
  | nil => intro saw _ i hi; exact absurd hi (by simp)
  | cons head rest ih =>
    obtain ⟨c, s⟩ := head
    intro saw hcl i hi
    have hstep : classifyLoop ((c, s) :: rest) saw =
        (if c ≠ 0 then
          if c = -SIGPIPE then classifyLoop rest true
          else PipelineOutcome.failed s
        else classifyLoop rest saw) := rfl
    rw [hstep] at hcl
    by_cases h0 : c = 0
    · rw [if_neg (by simpa using h0)] at hcl
      match i with
      | 0 => exact Or.inl (by simpa using h0)
      | (i' + 1) =>
        have := ih saw hcl i' (Nat.lt_of_succ_lt_succ hi)
        simpa using this
    · rw [if_pos h0] at hcl
      by_cases hs : c = -SIGPIPE
      · rw [if_pos hs] at hcl
        match i with
        | 0 => exact Or.inr (by simpa using hs)
        | (i' + 1) =>
          have := ih true hcl i' (Nat.lt_of_succ_lt_succ hi)
          simpa using this
      · rw [if_neg hs] at hcl
        exact absurd hcl (by simp)

/-- C1 (amended): for every result chain, (a) if stage `k` exits with a
non-zero status other than termination by SIGPIPE and every earlier stage
exits zero or by SIGPIPE, the reported failure is stage `k`'s captured
error text regardless of later stages — i.e. the reported failure is the
earliest definitive failure, never a later stage's; (b) the SIGPIPE-only
failure is surfaced only when no stage has any other non-zero exit. -/
theorem transcode_failure_classification :
    (∀ (rs : List (Int × String)) (k : Nat), k < rs.length →
      (rs.getD k (0, "")).1 ≠ 0 → (rs.getD k (0, "")).1 ≠ -SIGPIPE →
      (∀ i, i < k → (rs.getD i (0, "")).1 = 0 ∨ (rs.getD i (0, "")).1 = -SIGPIPE) →
      classifyResults rs = PipelineOutcome.failed (rs.getD k (0, "")).2) ∧
    (∀ rs : List (Int × String), classifyResults rs = PipelineOutcome.sigpipeFailed →
      ∀ i, i < rs.length →
        (rs.getD i (0, "")).1 = 0 ∨ (rs.getD i (0, "")).1 = -SIGPIPE) :=
  ⟨fun rs k hk hnz hns hbefore =>
    classifyLoop_failed_of_first rs k false hk hnz hns hbefore,
   fun rs h => classifyLoop_sigpipe_all rs false h⟩

/-- C1 counterexample to the claim as stated: in the chain with results
`[(1, "errA"), (2, "errB"), (-SIGPIPE, "errC")]`, stage 1 exits nonzero and
not by SIGPIPE while every later stage exits by SIGPIPE, yet the reported
failure text is stage 0's `"errA"` (the first definitive failure in chain
order), not stage 1's `"errB"`. -/
theorem transcode_failure_classification_cex :
    ¬ (∀ (rs : List (Int × String)) (k : Nat), k < rs.length →
        (rs.getD k (0, "")).1 ≠ 0 → (rs.getD k (0, "")).1 ≠ -SIGPIPE →
        (∀ i, i < rs.length → k < i → (rs.getD i (0, "")).1 = -SIGPIPE) →
        classifyResults rs = PipelineOutcome.failed (rs.getD k (0, "")).2) := by
  intro h
  have h1 := h [(1, "errA"), (2, "errB"), (-SIGPIPE, "errC")] 1
    (by decide) (by decide) (by decide) (by decide)
  exact absurd h1 (by decide)

/-- Witness for C1 (amended) at a concrete chain: the upstream stage died of
SIGPIPE, the middle stage failed definitively, the downstream stage died of
SIGPIPE — the middle stage's error text is reported. -/
theorem transcode_failure_classification_witness :
    classifyResults
        [((-SIGPIPE : Int), "pipeA"), ((1 : Int), "errB"), ((-SIGPIPE : Int), "pipeC")]
      = PipelineOutcome.failed "errB" :=
  transcode_failure_classification.1
    [(-SIGPIPE, "pipeA"), (1, "errB"), (-SIGPIPE, "pipeC")] 1
    (by decide) (by decide) (by decide) (by decide)

/-- C5: divergence inside the code.  A 16-bit release at 96000 Hz: the
release-level `needs_resampling` answers `false` (it consults only
`is_24bit`), while the per-file rule of `transcode` (line 175),
`sample_rate > 48000 or bits_per_sample > 16`, requires resampling —
`plan_checks` yields `resample = true` with target `"48000"`.  The 24-bit
44100 Hz case on which both agree is included for contrast. -/
theorem needs_resampling_misses_high_rate :
    needs_resampling [⟨96000, 16, 2⟩] = false ∧
    plan_checks 96000 16 2 = Except.ok (true, some "48000") ∧
    ((96000 : Nat) > 48000 ∨ (16 : Nat) > 16) ∧
    needs_resampling [⟨44100, 24, 2⟩] = true ∧
    plan_checks 44100 24 2 = Except.ok (true, some "44100") :=
  ⟨rfl, rfl, by decide, rfl, rfl⟩

/-- Branch-normal form of `plan_checks`. -/
theorem plan_checks_unfold (sr b ch : Nat) :
    plan_checks sr b ch =
      if (sr > 48000 || b > 16 : Bool) = true then
        if sr % 44100 = 0 then
          (if ch > 2 then Except.error TranscodeErr.downmix
           else Except.ok ((sr > 48000 || b > 16 : Bool), some "44100"))
        else if sr % 48000 = 0 then
          (if ch > 2 then Except.error TranscodeErr.downmix
           else Except.ok ((sr > 48000 || b > 16 : Bool), some "48000"))
        else Except.error TranscodeErr.unknownSampleRate
      else
        (if ch > 2 then Except.error TranscodeErr.downmix
         else Except.ok ((sr > 48000 || b > 16 : Bool), none)) := by
  unfold plan_checks
  dsimp only
  split_ifs <;> rfl

/-- `plan_transcode` propagates the result of `plan_checks`. -/
theorem plan_transcode_def (sr b ch : Nat) (fmt ff tf : String) :
    plan_transcode sr b ch fmt ff tf =
      match plan_checks sr b ch with
      | .error e => .error e
      | .ok rn => .ok (transcode_commands fmt rn.1 rn.2 ff tf) := by
  unfold plan_transcode
  rcases plan_checks sr b ch with e | rn <;> rfl

/-- `plan_checks` fails with the unsupported-rate error exactly when
resampling is required and the rate divides neither 44100 nor 48000. -/
theorem plan_checks_unknown_iff (sr b ch : Nat) :
    plan_checks sr b ch = Except.error TranscodeErr.unknownSampleRate ↔
      ((sr > 48000 ∨ b > 16) ∧ sr % 44100 ≠ 0 ∧ sr % 48000 ≠ 0) := by
  rw [plan_checks_unfold]
  split_ifs with h1 h2 h3 h4 h5 h6 <;>
    simp_all [Bool.or_eq_true, decide_eq_true_eq]

/-- C6: for every asset and output profile, planning fails with the
unsupported-rate error exactly when resampling is required (rate above
48000 or depth above 16 bits) and the rate is an integer multiple of
neither 44100 nor 48000; when resampling is required and the rate divides
44100 the chosen target is 44100, else if it divides 48000 the chosen
target is 48000. -/
theorem plan_resample_target :
    (∀ (sr b ch : Nat) (fmt ff tf : String),
      plan_transcode sr b ch fmt ff tf = Except.error TranscodeErr.unknownSampleRate ↔
        ((sr > 48000 ∨ b > 16) ∧ sr % 44100 ≠ 0 ∧ sr % 48000 ≠ 0)) ∧
    (∀ sr b ch : Nat, (sr > 48000 ∨ b > 16) → sr % 44100 = 0 → ¬ ch > 2 →
      plan_checks sr b ch = Except.ok (true, some "44100")) ∧
    (∀ sr b ch : Nat, (sr > 48000 ∨ b > 16) → sr % 44100 ≠ 0 → sr % 48000 = 0 →
      ¬ ch > 2 →
      plan_checks sr b ch = Except.ok (true, some "48000")) := by
  refine ⟨?_, ?_, ?_⟩
  · intro sr b ch fmt ff tf
    rw [plan_transcode_def, ← plan_checks_unknown_iff]
    rcases h : plan_checks sr b ch with e | rn <;> simp
  · intro sr b ch hres h44 hch
    have h1 : (sr > 48000 || b > 16 : Bool) = true := by
      simpa [Bool.or_eq_true, decide_eq_true_eq] using hres
    rw [plan_checks_unfold, if_pos h1, if_pos h44, if_neg hch, h1]
  · intro sr b ch hres h44 h48 hch
    have h1 : (sr > 48000 || b > 16 : Bool) = true := by
      simpa [Bool.or_eq_true, decide_eq_true_eq] using hres
    rw [plan_checks_unfold, if_pos h1, if_neg h44, if_pos h48, if_neg hch, h1]

/-- Witness for C6: sample rate 192001 (24-bit) fails planning with the
unsupported-rate error; 176400 maps to target 44100; 192000 maps to 48000. -/
theorem plan_resample_target_witness :
    plan_transcode 192001 24 2 "V0" "in.flac" "out.mp3"
      = Except.error TranscodeErr.unknownSampleRate ∧
    plan_checks 176400 16 2 = Except.ok (true, some "44100") ∧
    plan_checks 192000 16 2 = Except.ok (true, some "48000") :=
  ⟨(plan_resample_target.1 192001 24 2 "V0" "in.flac" "out.mp3").mpr (by decide),
   plan_resample_target.2.1 176400 16 2 (by decide) (by decide) (by decide),
   plan_resample_target.2.2 192000 16 2 (by decide) (by decide) (by decide) (by decide)⟩

/-- C7 counterexample to the claim as stated: a 6-channel, 16-bit asset at
192001 Hz needs resampling with an undetermined target; planning raises the
unsupported-rate error, not the unsupported-channel-layout error, because
the sample-rate check precedes the channel check. -/
theorem plan_downmix_cex :
    (6 : Nat) > 2 ∧
    plan_transcode 192001 16 6 "320" "in.flac" "out.mp3"
      = Except.error TranscodeErr.unknownSampleRate ∧
    plan_transcode 192001 16 6 "320" "in.flac" "out.mp3"
      ≠ Except.error TranscodeErr.downmix := by
  have h : plan_transcode 192001 16 6 "320" "in.flac" "out.mp3"
      = Except.error TranscodeErr.unknownSampleRate := rfl
  refine ⟨by decide, h, ?_⟩
  rw [h]
  simp

/-- C7 (amended): planning fails with the unsupported-channel-layout error
for every asset with more than two channels and for every output profile,
except when resampling is required and its target rate is undetermined, in
which case the unsupported-rate error takes precedence. -/
theorem plan_downmix_amended (sr b ch : Nat) (fmt ff tf : String)
    (hch : ch > 2)
    (hrate : ¬ ((sr > 48000 ∨ b > 16) ∧ sr % 44100 ≠ 0 ∧ sr % 48000 ≠ 0)) :
    plan_transcode sr b ch fmt ff tf = Except.error TranscodeErr.downmix := by
  rw [plan_transcode_def]
  have hpc : plan_checks sr b ch = Except.error TranscodeErr.downmix := by
    rw [plan_checks_unfold]
    by_cases h1 : (sr > 48000 || b > 16 : Bool) = true
    · rw [if_pos h1]
      by_cases h2 : sr % 44100 = 0
      · rw [if_pos h2, if_pos hch]
      · rw [if_neg h2]
        by_cases h3 : sr % 48000 = 0
        · rw [if_pos h3, if_pos hch]
        · exact absurd ⟨by simpa [Bool.or_eq_true, decide_eq_true_eq] using h1,
            h2, h3⟩ hrate
    · rw [if_neg h1, if_pos hch]
  rw [hpc]

/-- Witness for C7 (amended): a 6-channel 16-bit asset at 44100 Hz is
rejected with the downmix error for an MP3 profile. -/
theorem plan_downmix_amended_witness :
    plan_transcode 44100 16 6 "V0" "in.flac" "out.mp3"
      = Except.error TranscodeErr.downmix :=
  plan_downmix_amended 44100 16 6 "V0" "in.flac" "out.mp3" (by decide) (by decide)

/-- C8: for every known output profile, when the profile is lossless
(`"FLAC"`) and resampling is required the plan is exactly one combined
sox decode+resample+encode command (no pipe chain); for every other
profile/resampling combination the plan is exactly the two-stage chain of
the decoder command followed by the profile's encoder command. -/
theorem transcode_commands_shape (fmt : String)
    (hfmt : fmt = "320" ∨ fmt = "V0" ∨ fmt = "V2" ∨ fmt = "FLAC")
    (resample : Bool) (nsr : Option String) (ff tf : String) :
    (fmt = "FLAC" ∧ resample = true →
      ∃ e : Encoder, encoders fmt = some e ∧
        transcode_commands fmt resample nsr ff tf =
          some [format_cmd sox_combined_template (pipes_quote ff)
            (pipes_quote tf) e.opts (nsr.getD "None")]) ∧
    (¬ (fmt = "FLAC" ∧ resample = true) →
      ∃ e : Encoder, encoders fmt = some e ∧
        transcode_commands fmt resample nsr ff tf =
          some [format_cmd
                  (if resample then sox_decoder_template else flac_decoder_template)
                  (pipes_quote ff) (pipes_quote tf) e.opts (nsr.getD "None"),
                format_cmd
                  (if e.enc = "lame" then lame_encoder_template
                   else flac_encoder_template)
                  (pipes_quote ff) (pipes_quote tf) e.opts (nsr.getD "None")]) := by
  constructor
  · rintro ⟨rfl, rfl⟩
    exact ⟨⟨"flac", ".flac", "--best"⟩, rfl, by cases nsr <;> rfl⟩
  · intro hne
    rcases hfmt with rfl | rfl | rfl | rfl
    · exact ⟨⟨"lame", ".mp3", "-h -b 320 --ignore-tag-errors"⟩, rfl,
        by cases resample <;> cases nsr <;> rfl⟩
    · exact ⟨⟨"lame", ".mp3", "-V 0 --vbr-new --ignore-tag-errors"⟩, rfl,
        by cases resample <;> cases nsr <;> rfl⟩
    · exact ⟨⟨"lame", ".mp3", "-V 2 --vbr-new --ignore-tag-errors"⟩, rfl,
        by cases resample <;> cases nsr <;> rfl⟩
    · have hr : resample = false := by
        cases resample
        · rfl
        · exact absurd ⟨rfl, rfl⟩ hne
      subst hr
      exact ⟨⟨"flac", ".flac", "--best"⟩, rfl, by cases nsr <;> rfl⟩

/-- Witness for C8: the lossy profile `"V0"` with resampling yields the
two-stage sox-decoder-then-lame-encoder chain. -/
theorem transcode_commands_shape_witness :
    ∃ e : Encoder, encoders "V0" = some e ∧
      transcode_commands "V0" true (some "44100") "a.flac" "b.mp3" =
        some [format_cmd
                (if true then sox_decoder_template else flac_decoder_template)
                (pipes_quote "a.flac") (pipes_quote "b.mp3") e.opts
                ((some "44100").getD "None"),
              format_cmd
                (if e.enc = "lame" then lame_encoder_template
                 else flac_encoder_template)
                (pipes_quote "a.flac") (pipes_quote "b.mp3") e.opts
                ((some "44100").getD "None")] :=
  (transcode_commands_shape "V0" (Or.inr (Or.inl rfl)) true (some "44100")
    "a.flac" "b.mp3").2 (by decide)

/-- Branch-normal form of `transcode_release`. -/
theorem transcode_release_unfold (fs : FS) (flacs : List FlacInfo)
    (fd od bn fmt : String) (jobs : List (Except TranscodeErr String)) :
    transcode_release fs flacs fd od bn fmt jobs =
      if fmt = "FLAC" ∧ needs_resampling flacs = false then (fs, Except.ok fd)
      else if get_transcode_dir od bn fmt ∈ fs.dirs then
        (fs, Except.ok (get_transcode_dir od bn fmt))
      else
        match jobs.findSome?
            (fun r => match r with | .error e => some e | .ok _ => none) with
        | some e =>
          (⟨(get_transcode_dir od bn fmt :: fs.dirs).filter
              (fun d => d ≠ get_transcode_dir od bn fmt)⟩, Except.error e)
        | none => (⟨get_transcode_dir od bn fmt :: fs.dirs⟩,
            Except.ok (get_transcode_dir od bn fmt)) := rfl

/-- Removing the freshly created directory restores the original directory
set when that directory did not exist before. -/
theorem filter_new_dir (dirs : List String) (td : String) (h : td ∉ dirs) :
    (td :: dirs).filter (fun d => d ≠ td) = dirs := by
  have h1 : dirs.filter (fun d => d ≠ td) = dirs :=
    List.filter_eq_self.mpr
      (fun a ha => decide_eq_true (fun hatd => h (hatd ▸ ha)))
  simp [List.filter_cons, h1]
  intro a ha hatd
  exact h (hatd ▸ ha)

/-- C10: in the pass-through case (lossless profile, no release-level
resampling) `transcode_release` returns the source directory itself and
creates no output directory — the tracked directory set is unchanged, so
the returned path need not lie under the caller-supplied output root. -/
theorem transcode_release_passthrough (fs : FS) (flacs : List FlacInfo)
    (fd od bn : String) (jobs : List (Except TranscodeErr String))
    (h : needs_resampling flacs = false) :
    transcode_release fs flacs fd od bn "FLAC" jobs = (fs, Except.ok fd) := by
  rw [transcode_release_unfold, if_pos ⟨rfl, h⟩]

/-- Witness for C10: a 16-bit 44100 Hz release, FLAC output, empty
filesystem — the source directory comes back and nothing is created. -/
theorem transcode_release_passthrough_witness :
    transcode_release ⟨[]⟩ [⟨44100, 16, 2⟩] "/music/src" "/music/out" "album"
        "FLAC" [] = (⟨[]⟩, Except.ok "/music/src") :=
  transcode_release_passthrough ⟨[]⟩ [⟨44100, 16, 2⟩] "/music/src" "/music/out"
    "album" [] rfl

/-- C3: when a fresh output directory is created (not the pass-through
case, directory not pre-existing), (a) if any job fails the run propagates
a failing job's error and the final directory set equals the original —
the created directory is removed, no output directory is left behind;
(b) if every job succeeds the directory is returned intact, present in the
final directory set. -/
theorem transcode_release_cleanup (fs : FS) (flacs : List FlacInfo)
    (fd od bn fmt : String) (jobs : List (Except TranscodeErr String))
    (hnp : ¬ (fmt = "FLAC" ∧ needs_resampling flacs = false))
    (hnew : get_transcode_dir od bn fmt ∉ fs.dirs) :
    ((∃ e, Except.error e ∈ jobs) →
      ∃ e, Except.error e ∈ jobs ∧
        transcode_release fs flacs fd od bn fmt jobs = (fs, Except.error e)) ∧
    ((∀ e, Except.error e ∉ jobs) →
      transcode_release fs flacs fd od bn fmt jobs =
        (⟨get_transcode_dir od bn fmt :: fs.dirs⟩,
          Except.ok (get_transcode_dir od bn fmt))) := by
  constructor
  · rintro ⟨e0, he0⟩
    have hne : jobs.findSome?
        (fun r => match r with | .error e => some e | .ok _ => none) ≠ none := by
      intro hcon
      have := List.findSome?_eq_none_iff.mp hcon _ he0
      simp at this
    obtain ⟨e, he⟩ := Option.ne_none_iff_exists'.mp hne
    have hmem : Except.error e ∈ jobs := by
      obtain ⟨x, hx, hfx⟩ := List.exists_of_findSome?_eq_some he
      cases x with
      | ok v => simp at hfx
      | error e' =>
        have : e' = e := by simpa using hfx
        exact this ▸ hx
    refine ⟨e, hmem, ?_⟩
    rw [transcode_release_unfold, if_neg hnp, if_neg hnew, he,
      filter_new_dir fs.dirs _ hnew]
  · intro hno
    have hfind : jobs.findSome?
        (fun r => match r with | .error e => some e | .ok _ => none) = none :=
      List.findSome?_eq_none_iff.mpr (fun x hx => by
        cases x with
        | ok v => rfl
        | error e => exact absurd hx (hno e))
    rw [transcode_release_unfold, if_neg hnp, if_neg hnew, hfind]

/-- Witness for C3 at a concrete failing batch: one 24-bit file, profile
`"V0"`, the single job fails with the downmix error; the run propagates it
and the directory set is restored to empty. -/
theorem transcode_release_cleanup_witness :
    ∃ e, Except.error e ∈
        ([Except.error TranscodeErr.downmix] : List (Except TranscodeErr String)) ∧
      transcode_release ⟨[]⟩ [⟨44100, 24, 2⟩] "/music/src" "/music/out" "album"
          "V0" [Except.error TranscodeErr.downmix] =
        (⟨[]⟩, Except.error e) :=
  (transcode_release_cleanup ⟨[]⟩ [⟨44100, 24, 2⟩] "/music/src" "/music/out"
      "album" "V0" [Except.error TranscodeErr.downmix]
      (by simp) (by simp)).1 ⟨TranscodeErr.downmix, by simp⟩

/-- C4: (a) when the computed output directory already exists at run start
(and the run is not the pass-through case), `transcode_release` performs no
work — for every possible set of job outcomes it returns the existing
directory path with the directory set unchanged; (b) whenever a run
returns successfully, running again with identical arguments (and any job
outcomes, since no job is re-run) returns the same path and leaves the
filesystem unchanged. -/
theorem transcode_release_idempotent (flacs : List FlacInfo)
    (fd od bn fmt : String) :
    (∀ (fs : FS) (jobs : List (Except TranscodeErr String)),
      ¬ (fmt = "FLAC" ∧ needs_resampling flacs = false) →
      get_transcode_dir od bn fmt ∈ fs.dirs →
      transcode_release fs flacs fd od bn fmt jobs =
        (fs, Except.ok (get_transcode_dir od bn fmt))) ∧
    (∀ (fs fs' : FS) (p : String)
        (jobs jobs' : List (Except TranscodeErr String)),
      transcode_release fs flacs fd od bn fmt jobs = (fs', Except.ok p) →
      transcode_release fs' flacs fd od bn fmt jobs' = (fs', Except.ok p)) := by
  constructor
  · intro fs jobs hnp hmem
    rw [transcode_release_unfold, if_neg hnp, if_pos hmem]
  · intro fs fs' p jobs jobs' h
    by_cases hnp : fmt = "FLAC" ∧ needs_resampling flacs = false
    · rw [transcode_release_unfold, if_pos hnp] at h
      injection h with h1 h2
      injection h2 with h2
      subst h1; subst h2
      rw [transcode_release_unfold, if_pos hnp]
    · by_cases hmem : get_transcode_dir od bn fmt ∈ fs.dirs
      · rw [transcode_release_unfold, if_neg hnp, if_pos hmem] at h
        injection h with h1 h2
        injection h2 with h2
        subst h1; subst h2
        rw [transcode_release_unfold, if_neg hnp, if_pos hmem]
      · rw [transcode_release_unfold, if_neg hnp, if_neg hmem] at h
        rcases hfind : jobs.findSome?
            (fun r => match r with | .error e => some e | .ok _ => none)
          with _ | e
        · rw [hfind] at h
          injection h with h1 h2
          injection h2 with h2
          subst h2
          rw [transcode_release_unfold, if_neg hnp, ← h1]
          rw [if_pos (List.mem_cons_self _ _)]
        · rw [hfind] at h
          simp at h

/-- Witness for C4: with the computed output directory already present and
a 24-bit release (so not pass-through), the run returns that directory with
the filesystem untouched, whatever the job outcomes would have been. -/
theorem transcode_release_idempotent_witness :
    transcode_release ⟨[get_transcode_dir "/music/out" "album" "V0"]⟩
        [⟨44100, 24, 2⟩] "/music/src" "/music/out" "album" "V0"
        [Except.error TranscodeErr.downmix] =
      (⟨[get_transcode_dir "/music/out" "album" "V0"]⟩,
        Except.ok (get_transcode_dir "/music/out" "album" "V0")) :=
  (transcode_release_idempotent [⟨44100, 24, 2⟩] "/music/src" "/music/out"
      "album" "V0").1
    ⟨[get_transcode_dir "/music/out" "album" "V0"]⟩
    [Except.error TranscodeErr.downmix]
    (by simp) (List.mem_cons_self _ _)

end TranscoderPy
